import Mathlib

/-!
# Shallow embedding of the Twitter poller (aws-serverless-face-recognition-sentiment-analysis-on-twitter)

This file embeds, in Lean 4, the pure content of the poller modules

  * `src/lambdas/poller/error_handler.py`       (`ErrorHandler`)
  * `src/lambdas/poller/rate_limit_manager.py`  (`RateLimitManager`)
  * `src/lambdas/poller/checkpoint_manager.py`  (`CheckpointManager`)
  * `src/lambdas/poller/twitter_poller_optimized.py` (`TwitterPollerOptimized`)

and proves the frozen claims C1–C10 about them.  Effectful pieces are made
explicit: the DynamoDB checkpoint record becomes an `Option` value that is
threaded through, clock reads become a `now` parameter, `random.uniform`
becomes an explicit jitter-coefficient parameter, raised exceptions become
`Except`/`Option` results, and environment faults (network, store errors)
become explicit injected parameters.
-/

namespace Poller

/-! ## String helpers (Python `in`, `str.lower`, `str.replace(' ','')`) -/

/-- `prefixMatch n h` is true when the char list `n` is an initial segment of `h`
(the primitive behind Python's substring test). -/
def prefixMatch : List Char → List Char → Bool
  | [], _ => true
  | _ :: _, [] => false
  | a :: as, b :: bs => a = b && prefixMatch as bs

/-- `hasSub n h` is true when `n` occurs contiguously inside `h`. -/
def hasSub (n : List Char) : List Char → Bool
  | [] => prefixMatch n []
  | b :: bs => prefixMatch n (b :: bs) || hasSub n bs

/-- Python's `needle in hay` on strings: contiguous substring containment. -/
def containsSub (needle hay : String) : Bool :=
  hasSub needle.toList hay.toList

/-- Python's `str.lower()` (the code only ever feeds it ASCII error text). -/
def lowerStr (s : String) : String := String.mk (s.toList.map Char.toLower)

/-- Python's `str.replace(' ', '')`: delete every space. -/
def stripSpaces (s : String) : String := String.mk (s.toList.filter (fun c => c ≠ ' '))

/-! ## Python `int(...)` on strings

`pyIntOfString?` models CPython `int(s)` on the fragment the poller exercises:
an optional sign followed by one or more decimal digits (tweet ids, header
values).  `none` models the `ValueError` that `int` raises on anything that
does not parse. -/

/-- Value of all-decimal-digit char list, `none` if empty or a non-digit occurs. -/
def digitsVal (l : List Char) : Option Nat :=
  match l with
  | [] => none
  | _ => l.foldlM (fun acc c => if c.isDigit then some (acc * 10 + (c.toNat - 48)) else none) 0

/-- Python `int(s)`: optional sign then decimal digits; `none` = `ValueError`. -/
def pyIntOfString? (s : String) : Option Int :=
  match s.toList with
  | '-' :: rest => (digitsVal rest).map (fun n => -(n : Int))
  | '+' :: rest => (digitsVal rest).map (fun n => (n : Int))
  | l => (digitsVal l).map (fun n => (n : Int))

/-! ## `error_handler.py` -/

/-- `ErrorClassification` enum. -/
inductive ErrorClassification where
  | RETRYABLE_TRANSIENT
  | RETRYABLE_RATE_LIMIT
  | NON_RETRYABLE
deriving DecidableEq, Repr

/-- `RetryDecision`: whether and how to retry.  `wait_seconds` is exact
rational arithmetic standing for the Python float. -/
structure RetryDecision where
  should_retry : Bool
  wait_seconds : ℚ
  classification : ErrorClassification
deriving DecidableEq, Repr

/-- `ErrorHandler.MAX_RETRIES`. -/
def MAX_RETRIES : Nat := 5

/-- `ErrorHandler.BASE_DELAY`. -/
def BASE_DELAY : ℚ := 1

/-- `ErrorHandler.MAX_DELAY`. -/
def MAX_DELAY : ℚ := 300

/-- `ErrorHandler.JITTER_MIN`. -/
def JITTER_MIN : ℚ := 1/10

/-- `ErrorHandler.JITTER_MAX`. -/
def JITTER_MAX : ℚ := 3/10

/-- Condition of `classify_error`'s rate-limit branch. -/
def rate_limit_hit (error_str : String) : Bool :=
  containsSub "rate limit" error_str || containsSub "429" error_str

/-- Condition of `classify_error`'s network/timeout branch. -/
def network_transient_hit (error_str : String) : Bool :=
  ["timeout", "connection", "network", "temporary",
   "socket", "dns", "unreachable"].any (fun k => containsSub k error_str)

/-- Condition of `classify_error`'s HTTP 5xx branch (note: `501` is absent in
the source list). -/
def http_5xx_hit (error_str : String) : Bool :=
  ["500", "502", "503", "504"].any (fun c => containsSub c error_str)

/-- Condition of `classify_error`'s DynamoDB-throttling branch. -/
def throttle_hit (error_str : String) : Bool :=
  containsSub "throttl" error_str
    || containsSub "provisionedthroughputexceeded" (stripSpaces error_str)

/-- Condition of `classify_error`'s explicit non-retryable branch. -/
def fatal_marker_hit (error_str : String) : Bool :=
  ["401", "403", "unauthorized", "forbidden",
   "400", "bad request", "invalid"].any (fun k => containsSub k error_str)

/-- `ErrorHandler.classify_error`.  The argument is `str(error)`; the method
lowercases it and tests the substring groups in source order. -/
def classify_error (rawMessage : String) : ErrorClassification :=
  let error_str := lowerStr rawMessage
  if rate_limit_hit error_str then
    .RETRYABLE_RATE_LIMIT
  else if network_transient_hit error_str then
    .RETRYABLE_TRANSIENT
  else if http_5xx_hit error_str then
    .RETRYABLE_TRANSIENT
  else if throttle_hit error_str then
    .RETRYABLE_TRANSIENT
  else if fatal_marker_hit error_str then
    .NON_RETRYABLE
  else
    .NON_RETRYABLE

/-- `ErrorHandler.calculate_backoff_delay`.  `jitterCoeff` stands for the draw
`random.uniform(JITTER_MIN, JITTER_MAX)`; the Python defaults
(`BASE_DELAY`, `MAX_DELAY`) are supplied explicitly by callers. -/
def calculate_backoff_delay (attempt : Nat) (base_delay max_delay jitterCoeff : ℚ) : ℚ :=
  let delay := min (base_delay * 2 ^ attempt) max_delay
  let jitter := jitterCoeff * delay
  delay + jitter

/-- `ErrorHandler.handle_error` (the context/logging arguments only feed the
log and are dropped). -/
def handle_error (errorMessage : String) (attempt : Nat) (jitterCoeff : ℚ) : RetryDecision :=
  let classification := classify_error errorMessage
  if classification = .NON_RETRYABLE then
    { should_retry := false, wait_seconds := 0, classification := classification }
  else if attempt ≥ MAX_RETRIES then
    { should_retry := false, wait_seconds := 0, classification := classification }
  else
    let wait_seconds :=
      if classification = .RETRYABLE_RATE_LIMIT then
        calculate_backoff_delay attempt 5 MAX_DELAY jitterCoeff
      else
        calculate_backoff_delay attempt BASE_DELAY MAX_DELAY jitterCoeff
    { should_retry := true, wait_seconds := wait_seconds, classification := classification }

/-! ## `data_models.py` / `rate_limit_manager.py` -/

/-- `RateLimitStatus` dataclass. -/
structure RateLimitStatus where
  remaining_requests : Int
  reset_time : Int
  limit : Int
  should_wait : Bool := false
  wait_seconds : Int := 0
deriving DecidableEq, Repr

/-- `RateLimitStatus.is_exhausted`. -/
def RateLimitStatus.is_exhausted (s : RateLimitStatus) : Bool :=
  s.remaining_requests ≤ 0

/-- Mutable fields of `RateLimitManager`. -/
structure RLMState where
  current_status : Option RateLimitStatus := none
  last_request_time : Option ℚ := none
deriving DecidableEq, Repr

/-- `RateLimitManager.PROACTIVE_THRESHOLD`. -/
def PROACTIVE_THRESHOLD : ℚ := 1/5

/-- `RateLimitManager.MIN_REQUEST_INTERVAL`. -/
def MIN_REQUEST_INTERVAL : ℚ := 1

/-- `headers.get(key, 0)` followed by `int(...)`: an absent header falls back
to the integer `0`; a present header parses (and may fail as `ValueError`). -/
def headerInt? (headers : List (String × String)) (key : String) : Option Int :=
  match headers.lookup key with
  | none => some 0
  | some s => pyIntOfString? s

/-- `RateLimitManager.parse_rate_limit_headers`.  `now` stands for
`int(time.time())`.  Returns the parsed (or fallback) status together with the
updated manager state; the `except (ValueError, KeyError)` branch returns the
conservative default WITHOUT touching `self.current_status`. -/
def parse_rate_limit_headers (st : RLMState) (headers : List (String × String))
    (now : Int) : RateLimitStatus × RLMState :=
  match headerInt? headers "x-rate-limit-limit",
        headerInt? headers "x-rate-limit-remaining",
        headerInt? headers "x-rate-limit-reset" with
  | some limit, some remaining, some reset =>
    let proactive : Bool :=
      limit > 0 && ((limit - remaining : ℚ) / (limit : ℚ) ≥ 1 - PROACTIVE_THRESHOLD)
    let status : RateLimitStatus :=
      { remaining_requests := remaining
        reset_time := reset
        limit := limit
        should_wait := proactive
        wait_seconds := if proactive then max 0 (reset - now) else 0 }
    (status, { st with current_status := some status })
  | _, _, _ =>
    ({ remaining_requests := 1
       reset_time := now + 900
       limit := 1
       should_wait := false
       wait_seconds := 0 }, st)

/-- `RateLimitManager.calculate_wait_time` (Python `int(a / b)` on nonnegative
operands is integer division). -/
def calculate_wait_time (remaining_requests reset_time now : Int) : Int :=
  if remaining_requests ≤ 0 then
    max 0 (reset_time - now)
  else
    let time_until_reset := max 0 (reset_time - now)
    if remaining_requests > 0 && time_until_reset > 0 then
      min (time_until_reset / remaining_requests) 60
    else 0

/-- `RateLimitManager.should_continue_requests`. -/
def should_continue_requests (st : RLMState) (now : Int) : Bool :=
  match st.current_status with
  | none => true
  | some s =>
    if s.is_exhausted then false
    else if s.should_wait && now < s.reset_time then false
    else true

/-- `RateLimitManager.wait_if_needed`: returns seconds waited and the updated
state.  `time.sleep` is modelled by returning the wait; the trailing
`self.last_request_time = time.time()` line sees the clock advanced by any
interval sleep. -/
def wait_if_needed (st : RLMState) (now : ℚ) (force : Bool) : ℚ × RLMState :=
  match st.current_status with
  | none => (0, st)
  | some s =>
    if s.is_exhausted &&
        calculate_wait_time s.remaining_requests s.reset_time ⌊now⌋ > 0 then
      ((calculate_wait_time s.remaining_requests s.reset_time ⌊now⌋ : ℚ), st)
    else if (force || s.should_wait) && min s.wait_seconds 300 > 0 then
      ((min s.wait_seconds 300 : ℚ), st)
    else
      match st.last_request_time with
      | some last =>
        if now - last < MIN_REQUEST_INTERVAL then
          let interval_wait := MIN_REQUEST_INTERVAL - (now - last)
          (interval_wait, { st with last_request_time := some (now + interval_wait) })
        else (0, { st with last_request_time := some now })
      | none => (0, { st with last_request_time := some now })

/-! ## `checkpoint_manager.py`

The DynamoDB record keyed `id = 'checkpoint'` becomes an optional pair of the
stored `since_id` string and its numeric twin `since_id_num`.  An environment
fault injected into a store call is an optional AWS error code; the
`ClientError` handler turns `ConditionalCheckFailedException` into `False` and
re-raises anything else (`Except.error`). -/

/-- The single checkpoint record: `since_id` plus `since_id_num`. -/
structure CheckpointRecord where
  since_id : String
  since_id_num : Int
deriving DecidableEq, Repr

/-- The checkpoint table: at most one record (key `'checkpoint'`). -/
abbrev CheckpointStore := Option CheckpointRecord

/-- `CheckpointManager.get_last_checkpoint` (fault-free read). -/
def get_last_checkpoint (store : CheckpointStore) : Option String :=
  store.map (fun r => r.since_id)

/-- `CheckpointManager.update_checkpoint_atomic`.  `int(since_id)` may raise
`ValueError`; the conditional `put_item` succeeds iff the record is absent or
`since_id_num` strictly below the new value; a conditional-check rejection is
caught and returns `false`; an injected store fault with any other code
re-raises.  (The `previous_id` parameter of the Python method is unused by the
conditional write and is omitted.) -/
def update_checkpoint_atomic (fault : Option String) (store : CheckpointStore)
    (since_id : String) : Except String (Bool × CheckpointStore) :=
  match pyIntOfString? since_id with
  | none => .error "ValueError"
  | some since_id_int =>
    match fault with
    | some code =>
      if code = "ConditionalCheckFailedException" then .ok (false, store)
      else .error code
    | none =>
      match store with
      | none => .ok (true, some ⟨since_id, since_id_int⟩)
      | some r =>
        if r.since_id_num < since_id_int then .ok (true, some ⟨since_id, since_id_int⟩)
        else .ok (false, store)

/-- `CheckpointManager.validate_checkpoint`: non-empty, parses as a positive
integer; the 10–25 digit length check only logs a warning. -/
def validate_checkpoint (since_id : String) : Bool :=
  if since_id = "" then false
  else
    match pyIntOfString? since_id with
    | none => false
    | some tweet_id => if tweet_id ≤ 0 then false else true

/-- Fault-free `update_checkpoint_atomic` applied to a whole list of cursor
strings in order, collecting each call's boolean result (the sequential
"sequence of advance calls" of the checkpoint protocol). -/
def runAdvances : List String → CheckpointStore → Except String (List Bool × CheckpointStore)
  | [], store => .ok ([], store)
  | s :: rest, store =>
    match update_checkpoint_atomic none store s with
    | .error e => .error e
    | .ok (b, store') =>
      match runAdvances rest store' with
      | .error e => .error e
      | .ok (bs, storeF) => .ok (b :: bs, storeF)

/-! ## `twitter_poller_optimized.py`

The orchestrator.  Downstream Lambda dispatch outcomes and upstream fetch
outcomes are environment inputs (`dispatchOk`, `FetchEvent`); the wall clock is
an explicit rational `now`.  `_transform_tweets` (media filtering of the raw
page) is kept abstract: each fetch event carries both the raw `data` and the
transformed page, since no claim constrains the media filter itself. -/

/-- A transformed tweet as built by `_transform_tweets` (the fields beyond the
id play no role in slicing/checkpointing and are carried as payload). -/
structure Tweet where
  id : String
  full_text : String := ""
deriving DecidableEq, Repr

/-- `TwitterPollerOptimized.MAX_EXECUTION_TIME` (seconds). -/
def MAX_EXECUTION_TIME : ℚ := 840

/-- `TwitterPollerOptimized.DEFAULT_BATCH_SIZE`. -/
def DEFAULT_BATCH_SIZE : Nat := 25

/-- `TwitterPollerOptimized.MAX_TWEETS_PER_EXECUTION`. -/
def MAX_TWEETS_PER_EXECUTION : Nat := 1000

/-- The slices `page[i : min(i+bs, len(page))]` for `i = 0, bs, 2·bs, …` (the
inner loop of `process_batch_stream`).  `bs = 0` cannot occur (Python
`range(…, 0)` would raise) and is mapped to no slices. -/
def chunks (bs : Nat) : List α → List (List α)
  | [] => []
  | a :: rest =>
    if _h : bs = 0 then []
    else (a :: rest).take bs :: chunks bs ((a :: rest).drop bs)
  termination_by l => l.length
  decreasing_by simp [List.length_drop]; omega

/-- Observable per-invocation state of the poller: the checkpoint store, the
log of downstream dispatches and of checkpoint-advance calls, and the
`ExecutionMetrics` counters the claims mention. -/
structure PollTrace where
  store : CheckpointStore := none
  batches : List (List Tweet) := []
  advances : List String := []
  api_calls_made : Nat := 0
  tweets_processed : Nat := 0
  batches_sent : Nat := 0
  checkpoint_updates : Nat := 0
  errors_encountered : Nat := 0
  rate_limit_waits : Nat := 0
  total_wait_seconds : ℚ := 0
deriving DecidableEq, Repr

/-- One `lambda_client.invoke` attempt for one batch (the `try` body of
`process_batch_stream`'s inner loop).  `dispatchOk` tells, per attempt index,
whether the invoke raises; a failure only bumps `errors_encountered`. -/
def dispatch_batch (dispatchOk : Nat → Bool) (tr : PollTrace) (batch : List Tweet) :
    PollTrace :=
  let attempt := tr.batches.length
  let tr := { tr with batches := tr.batches ++ [batch] }
  if dispatchOk attempt then
    { tr with batches_sent := tr.batches_sent + 1
              tweets_processed := tr.tweets_processed + batch.length }
  else
    { tr with errors_encountered := tr.errors_encountered + 1 }

/-- `TwitterPollerOptimized._update_checkpoint`: validate, read the previous
checkpoint, then the atomic conditional write; a `true` result bumps
`checkpoint_updates`.  `advances` logs each value actually submitted to
`update_checkpoint_atomic`. -/
def update_checkpoint (tr : PollTrace) (since_id : String) : Except String PollTrace :=
  if ¬ validate_checkpoint since_id then .ok tr
  else
    let _previous_id := get_last_checkpoint tr.store
    match update_checkpoint_atomic none tr.store since_id with
    | .error e => .error e
    | .ok (success, store') =>
      .ok { tr with store := store'
                    advances := tr.advances ++ [since_id]
                    checkpoint_updates :=
                      tr.checkpoint_updates + (if success then 1 else 0) }

/-- Tail of each page iteration of `process_batch_stream`: if the page is
non-empty, `newest_id = max(int(tweet['id']) …)` (a parse failure is the
raised `ValueError`) and the checkpoint is updated to `str(newest_id)`. -/
def checkpoint_page (tr : PollTrace) (page : List Tweet) : Except String PollTrace :=
  match page with
  | [] => .ok tr
  | t :: ts =>
    match pyIntOfString? t.id, ts.mapM (fun u => pyIntOfString? u.id) with
    | some v, some vs => update_checkpoint tr (toString (vs.foldl max v))
    | _, _ => .error "ValueError"

/-- `TwitterPollerOptimized.process_batch_stream` over a materialised list of
pages: slice each page into `chunks bs`, dispatch each slice, then advance the
checkpoint to the page's maximum numeric id. -/
def process_batch_stream (dispatchOk : Nat → Bool) (bs : Nat) :
    List (List Tweet) → PollTrace → Except String PollTrace
  | [], tr => .ok tr
  | page :: rest, tr =>
    let tr1 := (chunks bs page).foldl (dispatch_batch dispatchOk) tr
    match checkpoint_page tr1 page with
    | .error e => .error e
    | .ok tr2 => process_batch_stream dispatchOk bs rest tr2

/-- `TwitterPollerOptimized.should_terminate`: elapsed wall clock at or past
`MAX_EXECUTION_TIME`, or processed count at or past
`MAX_TWEETS_PER_EXECUTION`. -/
def should_terminate (elapsed : ℚ) (tweets_processed : Nat) : Bool :=
  if elapsed ≥ MAX_EXECUTION_TIME then true
  else if tweets_processed ≥ MAX_TWEETS_PER_EXECUTION then true
  else false

/-- Outcome the environment gives one `search_recent_tweets` call: a raised
exception (with the jitter draw its retry path would use), or a response with
optional rate-limit headers, raw `data`, its `_transform_tweets` image, and an
optional `next_token`. -/
inductive FetchOutcome where
  | failure (message : String) (jitterCoeff : ℚ)
  | success (headers : Option (List (String × String))) (data : List Tweet)
      (transformed : List Tweet) (next_token : Option String)
deriving Repr

/-- One upstream call as the environment sees it: wall-clock duration plus
outcome. -/
structure FetchEvent where
  duration : ℚ
  outcome : FetchOutcome
deriving Repr

/-- Whole-invocation state threaded through the pagination loop. -/
structure LoopState where
  start : ℚ
  now : ℚ
  rlm : RLMState := {}
  trace : PollTrace := {}
  next_token : Option String := none
deriving Repr

/-- `TwitterPollerOptimized.search_with_pagination` fused with its consumer
`process_batch_stream` (the generator yields one page at a time, so each
yielded page is dispatched and checkpointed before the next iteration of the
`while` loop).  The event list is the finite prefix of upstream behaviour this
invocation can observe; exhausting it ends the run.  Each iteration first
checks `should_terminate`, then the rate-limit gate, and only then issues the
fetch. -/
def search_loop (dispatchOk : Nat → Bool) (bs : Nat) :
    List FetchEvent → LoopState → Except String LoopState
  | [], st => .ok st
  | ev :: env, st =>
    if should_terminate (st.now - st.start) st.trace.tweets_processed then .ok st
    else if ¬ should_continue_requests st.rlm ⌊st.now⌋ then .ok st
    else
      -- the fetch is issued: clock advances, `api_calls_made` bumps
      let now1 := st.now + ev.duration
      let tr1 := { st.trace with api_calls_made := st.trace.api_calls_made + 1 }
      match ev.outcome with
      | .failure message jitterCoeff =>
        let tr2 := { tr1 with errors_encountered := tr1.errors_encountered + 1 }
        let decision := handle_error message (tr2.errors_encountered - 1) jitterCoeff
        if ¬ decision.should_retry then
          .ok { st with now := now1, trace := tr2 }
        else
          search_loop dispatchOk bs env
            { st with now := now1 + decision.wait_seconds
                      trace := { tr2 with total_wait_seconds :=
                                  tr2.total_wait_seconds + decision.wait_seconds } }
      | .success headers data transformed tok =>
        let (rlm1, tr2) :=
          match headers with
          | none => (st.rlm, tr1)
          | some hs =>
            let (status, rlm') := parse_rate_limit_headers st.rlm hs ⌊now1⌋
            (rlm', if status.should_wait then
                     { tr1 with rate_limit_waits := tr1.rate_limit_waits + 1 }
                   else tr1)
        if data = [] then .ok { st with now := now1, rlm := rlm1, trace := tr2 }
        else
          let afterPage : Except String PollTrace :=
            if transformed = [] then .ok tr2
            else
              let tr3 := (chunks bs transformed).foldl (dispatch_batch dispatchOk) tr2
              checkpoint_page tr3 transformed
          match afterPage with
          | .error e => .error e
          | .ok tr4 =>
            match tok with
            | none => .ok { st with now := now1, rlm := rlm1, trace := tr4 }
            | some t =>
              let (wait, rlm2) := wait_if_needed rlm1 now1 false
              search_loop dispatchOk bs env
                { st with now := now1 + wait
                          rlm := rlm2
                          next_token := some t
                          trace := { tr4 with total_wait_seconds :=
                                      tr4.total_wait_seconds +
                                        (if wait > 0 then wait else 0) } }

/-- A concrete 30-item page whose maximum numeric id is
`"2000000000000000300"` (used to instantiate Scenario A). -/
def pageA : List Tweet :=
  ({ id := "1000000000" } : Tweet) ::
    (List.replicate 28 ({ id := "1000000000" } : Tweet) ++ [{ id := "2000000000000000300" }])

/-- The numeric ids of `pageA`'s tail. -/
def pageAValues : List Int :=
  List.replicate 28 (1000000000 : Int) ++ [2000000000000000300]

/-! ## Helper lemmas about `chunks` -/

/-- `chunks` on the empty page yields no slices. -/
lemma chunks_nil (bs : Nat) : chunks (α := α) bs [] = [] := by
  simp [chunks]

/-- Unfolding `chunks` on a non-empty page with positive batch size. -/
lemma chunks_cons_eq (bs : Nat) (hbs : bs ≠ 0) (l : List α) (hl : l ≠ []) :
    chunks bs l = l.take bs :: chunks bs (l.drop bs) := by
  cases l with
  | nil => exact absurd rfl hl
  | cons a rest =>
    rw [chunks]
    exact dif_neg hbs

/-- A non-empty page no longer than the batch size is a single slice. -/
lemma chunks_singleton_of_le (bs : Nat) (hbs : bs ≠ 0) (l : List α)
    (hne : l ≠ []) (hle : l.length ≤ bs) : chunks bs l = [l] := by
  rw [chunks_cons_eq bs hbs l hne, List.take_of_length_le hle,
      List.drop_eq_nil_of_le hle, chunks_nil]

/-! ## Helper lemmas about the classifier -/

/-- A rate-limit marker fires the first branch. -/
lemma classify_of_rate (s : String) (h : rate_limit_hit (lowerStr s) = true) :
    classify_error s = .RETRYABLE_RATE_LIMIT := by
  simp [classify_error, h]

/-- With no rate-limit marker, any transient branch condition yields
`RETRYABLE_TRANSIENT`. -/
lemma classify_of_transient (s : String) (h0 : rate_limit_hit (lowerStr s) = false)
    (h : network_transient_hit (lowerStr s) = true ∨ http_5xx_hit (lowerStr s) = true ∨
         throttle_hit (lowerStr s) = true) :
    classify_error s = .RETRYABLE_TRANSIENT := by
  rcases h with h | h | h
  · simp [classify_error, h0, h]
  · cases hn : network_transient_hit (lowerStr s) <;> simp [classify_error, h0, h, hn]
  · cases hn : network_transient_hit (lowerStr s) <;>
      cases hh : http_5xx_hit (lowerStr s) <;> simp [classify_error, h0, h, hn, hh]

/-- With no retryable branch condition, the result is `NON_RETRYABLE` whether
or not an explicit fatal marker is present. -/
lemma classify_of_no_retryable (s : String) (h0 : rate_limit_hit (lowerStr s) = false)
    (h1 : network_transient_hit (lowerStr s) = false)
    (h2 : http_5xx_hit (lowerStr s) = false)
    (h3 : throttle_hit (lowerStr s) = false) :
    classify_error s = .NON_RETRYABLE := by
  cases hf : fatal_marker_hit (lowerStr s) <;> simp [classify_error, h0, h1, h2, h3, hf]

/-! ## Helper lemmas about the rate-limit manager -/

/-- When one of the three telemetry fields is present but unparsable, the
`except` branch returns the conservative default and leaves the manager state
untouched. -/
lemma parse_malformed (st : RLMState) (headers : List (String × String)) (now : Int)
    (h : headerInt? headers "x-rate-limit-limit" = none ∨
         headerInt? headers "x-rate-limit-remaining" = none ∨
         headerInt? headers "x-rate-limit-reset" = none) :
    parse_rate_limit_headers st headers now =
      ({ remaining_requests := 1, reset_time := now + 900, limit := 1,
         should_wait := false, wait_seconds := 0 }, st) := by
  cases hA : headerInt? headers "x-rate-limit-limit" <;>
    cases hB : headerInt? headers "x-rate-limit-remaining" <;>
      cases hC : headerInt? headers "x-rate-limit-reset" <;>
        simp_all [parse_rate_limit_headers]

/-! ## Helper lemmas about the checkpoint store -/

/-- Fault-free sequential advances from an existing record: every call
succeeds or is rejected by the condition, no error escapes, and the final
stored numeric cursor is the running maximum of the submitted values and the
initial one. -/
lemma runAdvances_from_record (l : List (String × Int))
    (hp : ∀ p ∈ l, pyIntOfString? p.1 = some p.2) (r0 : CheckpointRecord) :
    ∃ results record,
      runAdvances (l.map Prod.fst) (some r0) = .ok (results, some record)
        ∧ record.since_id_num = (l.map Prod.snd).foldl max r0.since_id_num
        ∧ results.length = l.length := by
  induction l generalizing r0 with
  | nil => exact ⟨[], r0, rfl, rfl, rfl⟩
  | cons p rest ih =>
    have hparse : pyIntOfString? p.1 = some p.2 := hp p (List.mem_cons_self p rest)
    have hp' : ∀ q ∈ rest, pyIntOfString? q.1 = some q.2 :=
      fun q hq => hp q (List.mem_cons_of_mem p hq)
    by_cases hlt : r0.since_id_num < p.2
    · obtain ⟨results, record, hrun, hmax, hlenr⟩ := ih hp' ⟨p.1, p.2⟩
      refine ⟨true :: results, record, ?_, ?_, by simp [hlenr]⟩
      · simp [runAdvances, update_checkpoint_atomic, hparse, hlt, hrun]
      · rw [hmax]
        simp [List.foldl_cons, max_eq_right (le_of_lt hlt)]
    · obtain ⟨results, record, hrun, hmax, hlenr⟩ := ih hp' r0
      refine ⟨false :: results, record, ?_, ?_, by simp [hlenr]⟩
      · simp [runAdvances, update_checkpoint_atomic, hparse, hlt, hrun]
      · rw [hmax]
        simp [List.foldl_cons, max_eq_left (not_lt.mp hlt)]

/-! ## Claim theorems -/

/-- C1: for any non-empty sequence of numeric advances applied to an absent
record, every call returns without error and the final stored numeric cursor
is the maximum of the submitted values; each single fault-free call succeeds
(returning `true` and installing its value) exactly when no record exists or
its value strictly exceeds the stored numeric value, and returns `false`
leaving the store unchanged otherwise; a conditional-check rejection from the
store is caught and returned as `false`, while any other store failure
re-raises. -/
theorem advance_monotone_max_spec :
    (∀ (p : String × Int) (rest : List (String × Int)),
      (∀ q ∈ p :: rest, pyIntOfString? q.1 = some q.2) →
      ∃ results record,
        runAdvances ((p :: rest).map Prod.fst) none = .ok (results, some record)
          ∧ record.since_id_num = (rest.map Prod.snd).foldl max p.2
          ∧ results.length = rest.length + 1)
  ∧ (∀ (store : CheckpointStore) (s : String) (v : Int),
      pyIntOfString? s = some v →
      ((store = none ∨ ∃ r, store = some r ∧ r.since_id_num < v) →
        update_checkpoint_atomic none store s = .ok (true, some ⟨s, v⟩))
      ∧ (¬(store = none ∨ ∃ r, store = some r ∧ r.since_id_num < v) →
        update_checkpoint_atomic none store s = .ok (false, store)))
  ∧ (∀ (store : CheckpointStore) (s : String) (v : Int),
      pyIntOfString? s = some v →
      update_checkpoint_atomic (some "ConditionalCheckFailedException") store s
        = .ok (false, store))
  ∧ (∀ (store : CheckpointStore) (s : String) (v : Int) (code : String),
      pyIntOfString? s = some v → code ≠ "ConditionalCheckFailedException" →
      update_checkpoint_atomic (some code) store s = .error code) := by
  refine ⟨?_, ?_, ?_, ?_⟩
  · rintro p rest hp
    have hparse : pyIntOfString? p.1 = some p.2 := hp p (List.mem_cons_self p rest)
    have hp' : ∀ q ∈ rest, pyIntOfString? q.1 = some q.2 :=
      fun q hq => hp q (List.mem_cons_of_mem p hq)
    obtain ⟨results, record, hrun, hmax, hlenr⟩ := runAdvances_from_record rest hp' ⟨p.1, p.2⟩
    refine ⟨true :: results, record, ?_, by simpa using hmax, by simp [hlenr]⟩
    simp [runAdvances, update_checkpoint_atomic, hparse, hrun]
  · intro store s v hparse
    constructor
    · rintro (rfl | ⟨r, rfl, hr⟩)
      · simp [update_checkpoint_atomic, hparse]
      · simp [update_checkpoint_atomic, hparse, hr]
    · intro hneg
      push_neg at hneg
      obtain ⟨hne, hnotlt⟩ := hneg
      cases store with
      | none => exact absurd rfl hne
      | some r =>
        have hle : ¬ r.since_id_num < v := by
          intro hlt
          exact absurd hlt (by simpa using hnotlt r)
        simp [update_checkpoint_atomic, hparse, hle]
  · intro store s v hparse
    simp [update_checkpoint_atomic, hparse]
  · intro store s v code hparse hcode
    simp [update_checkpoint_atomic, hparse, hcode]

/-- C1 witness: advancing an absent record through `"100"`, `"300"`, `"200"`
ends with stored numeric cursor `300` after three error-free calls. -/
theorem advance_monotone_max_spec_witness :
    ∃ results record,
      runAdvances ["100", "300", "200"] none = .ok (results, some record)
        ∧ record.since_id_num = 300 ∧ results.length = 3 := by
  obtain ⟨results, record, h1, h2, h3⟩ :=
    advance_monotone_max_spec.1 ("100", 100) [("300", 300), ("200", 200)] (by decide)
  refine ⟨results, record, by simpa using h1, ?_, by simpa using h3⟩
  rw [h2]
  decide

/-- C3 counterexample: `"501"` is a 500–504 status code contained in the
message `"501"`, yet `classify_error` does not classify it TRANSIENT (the
source's 5xx list is `500/502/503/504`; the claim's range `500-504` fails at
`501`, which falls through to the fail-closed default). -/
theorem classify_501_not_transient :
    (["500", "501", "502", "503", "504"].any
        (fun c => containsSub c (lowerStr "501"))) = true
      ∧ classify_error "501" = .NON_RETRYABLE := by
  decide

/-- C3 (amended): `classify_error` maps any message with a rate-limit marker
(`429`/`rate limit`) to RATE_LIMITED; absent those, any message containing
timeout/connection/socket/dns, one of the status codes 500/502/503/504
(501 is not recognized), or a throttling marker, to TRANSIENT; and when no
retryable branch condition holds, to NON_RETRYABLE — both for explicit fatal
markers (400/401/403/unauthorized/invalid) and for unrecognized text
(fail closed). -/
theorem classify_error_spec (s : String) :
    (rate_limit_hit (lowerStr s) = true → classify_error s = .RETRYABLE_RATE_LIMIT)
  ∧ (rate_limit_hit (lowerStr s) = false →
      (containsSub "timeout" (lowerStr s) = true ∨
       containsSub "connection" (lowerStr s) = true ∨
       containsSub "socket" (lowerStr s) = true ∨
       containsSub "dns" (lowerStr s) = true ∨
       containsSub "500" (lowerStr s) = true ∨
       containsSub "502" (lowerStr s) = true ∨
       containsSub "503" (lowerStr s) = true ∨
       containsSub "504" (lowerStr s) = true ∨
       containsSub "throttl" (lowerStr s) = true) →
      classify_error s = .RETRYABLE_TRANSIENT)
  ∧ (rate_limit_hit (lowerStr s) = false →
     network_transient_hit (lowerStr s) = false →
     http_5xx_hit (lowerStr s) = false →
     throttle_hit (lowerStr s) = false →
      classify_error s = .NON_RETRYABLE) := by
  refine ⟨classify_of_rate s, ?_, classify_of_no_retryable s⟩
  intro h0 h
  apply classify_of_transient s h0
  rcases h with h | h | h | h | h | h | h | h | h
  · exact Or.inl (by simp [network_transient_hit, h])
  · exact Or.inl (by simp [network_transient_hit, h])
  · exact Or.inl (by simp [network_transient_hit, h])
  · exact Or.inl (by simp [network_transient_hit, h])
  · exact Or.inr (Or.inl (by simp [http_5xx_hit, h]))
  · exact Or.inr (Or.inl (by simp [http_5xx_hit, h]))
  · exact Or.inr (Or.inl (by simp [http_5xx_hit, h]))
  · exact Or.inr (Or.inl (by simp [http_5xx_hit, h]))
  · exact Or.inr (Or.inr (by simp [throttle_hit, h]))

/-- C3 witness: the amended classifier spec applied at `"503 bad request"`:
no rate-limit marker, the 503 code is present, and the classification is
TRANSIENT. -/
theorem classify_error_spec_witness :
    classify_error "503 bad request" = .RETRYABLE_TRANSIENT :=
  (classify_error_spec "503 bad request").2.1 (by decide)
    (Or.inr (Or.inr (Or.inr (Or.inr (Or.inr (Or.inr (Or.inl (by decide))))))))

/-- C9: the substring groups are tested in source order — rate-limit first,
then the transient groups, then the fatal markers — so a fatal marker never
overrides an earlier retryable match: a message with both a rate-limit and a
fatal marker classifies RATE_LIMITED, and a message with a transient marker
and a fatal marker (and no rate-limit marker) classifies TRANSIENT; in
particular `'429 invalid'` is RATE_LIMITED and `'invalid connection timeout'`
is TRANSIENT. -/
theorem classify_order_spec (s : String) :
    (rate_limit_hit (lowerStr s) = true → fatal_marker_hit (lowerStr s) = true →
      classify_error s = .RETRYABLE_RATE_LIMIT)
  ∧ (rate_limit_hit (lowerStr s) = false →
     (network_transient_hit (lowerStr s) = true ∨ http_5xx_hit (lowerStr s) = true ∨
      throttle_hit (lowerStr s) = true) →
     fatal_marker_hit (lowerStr s) = true →
      classify_error s = .RETRYABLE_TRANSIENT)
  ∧ classify_error "429 invalid" = .RETRYABLE_RATE_LIMIT
  ∧ classify_error "invalid connection timeout" = .RETRYABLE_TRANSIENT := by
  refine ⟨fun h _ => classify_of_rate s h,
          fun h0 h _ => classify_of_transient s h0 h, by decide, by decide⟩

/-- C9 witness: the order spec applied at `"429 invalid"`, which carries both
a rate-limit and a fatal marker. -/
theorem classify_order_spec_witness :
    classify_error "429 invalid" = .RETRYABLE_RATE_LIMIT :=
  (classify_order_spec "429 invalid").1 (by decide) (by decide)

/-- C4: `handle_error` never retries on a NON_RETRYABLE classification or an
attempt index at or past `MAX_RETRIES = 5`; otherwise it retries after a
backoff delay with base 5 s for RATE_LIMITED failures and base
`BASE_DELAY = 1` s for TRANSIENT ones (cap `MAX_DELAY = 300`). -/
theorem handle_error_spec (msg : String) (attempt : Nat) (r : ℚ) :
    ((classify_error msg = .NON_RETRYABLE ∨ 5 ≤ attempt) →
      (handle_error msg attempt r).should_retry = false)
  ∧ (classify_error msg ≠ .NON_RETRYABLE → attempt < 5 →
      handle_error msg attempt r =
        { should_retry := true
          wait_seconds :=
            calculate_backoff_delay attempt
              (if classify_error msg = .RETRYABLE_RATE_LIMIT then 5 else 1) 300 r
          classification := classify_error msg }) := by
  constructor
  · rintro (h | h)
    · simp [handle_error, h]
    · by_cases hc : classify_error msg = .NON_RETRYABLE
      · simp [handle_error, hc]
      · simp [handle_error, hc, MAX_RETRIES, h]
  · intro hc hlt
    simp [handle_error, hc, MAX_RETRIES, Nat.not_le.mpr hlt, BASE_DELAY, MAX_DELAY]
    split <;> rfl

/-- C4 witness: a TRANSIENT failure at attempt 2 with jitter coefficient 1/5
retries after `min(1·2², 300)·(1 + 1/5) = 24/5` seconds. -/
theorem handle_error_spec_witness :
    handle_error "timeout" 2 (1/5) =
      { should_retry := true
        wait_seconds :=
          calculate_backoff_delay 2
            (if classify_error "timeout" = .RETRYABLE_RATE_LIMIT then 5 else 1) 300 (1/5)
        classification := classify_error "timeout" } :=
  (handle_error_spec "timeout" 2 (1/5)).2 (by decide) (by decide)

/-- C7: the backoff delay equals `delay + r·delay` with
`delay = min(base·2^attempt, cap)`; for any jitter coefficient `r` in
`[1/10, 3/10]` the jitter is only added, so the result lies in
`[delay, 3/2·cap]`. -/
theorem backoff_delay_spec (attempt : Nat) (base cap r : ℚ)
    (hbase : 0 < base) (hcap : 0 < cap) (hr1 : 1/10 ≤ r) (hr2 : r ≤ 3/10) :
    calculate_backoff_delay attempt base cap r
        = min (base * 2 ^ attempt) cap + r * min (base * 2 ^ attempt) cap
  ∧ min (base * 2 ^ attempt) cap ≤ calculate_backoff_delay attempt base cap r
  ∧ calculate_backoff_delay attempt base cap r ≤ 3/2 * cap := by
  have hpow : (0 : ℚ) < base * 2 ^ attempt := by positivity
  have hd : 0 < min (base * 2 ^ attempt) cap := lt_min hpow hcap
  have hdc : min (base * 2 ^ attempt) cap ≤ cap := min_le_right _ _
  refine ⟨rfl, ?_, ?_⟩
  · simp only [calculate_backoff_delay]
    nlinarith
  · simp only [calculate_backoff_delay]
    nlinarith

/-- C7 witness: attempt 2, base 1, cap 300, jitter coefficient 1/5. -/
theorem backoff_delay_spec_witness :
    calculate_backoff_delay 2 1 300 (1/5)
        = min ((1 : ℚ) * 2 ^ 2) 300 + (1/5) * min ((1 : ℚ) * 2 ^ 2) 300
  ∧ min ((1 : ℚ) * 2 ^ 2) 300 ≤ calculate_backoff_delay 2 1 300 (1/5)
  ∧ calculate_backoff_delay 2 1 300 (1/5) ≤ 3/2 * 300 :=
  backoff_delay_spec 2 1 300 (1/5) (by norm_num) (by norm_num) (by norm_num) (by norm_num)

/-- C8: `validate_checkpoint` accepts exactly the strings that parse as a
positive integer (the empty string, non-numeric strings, and non-positive
values are rejected); digit count is never a rejection criterion — a 1-digit
and a 26-digit positive id are both valid (lengths outside 10–25 only log a
warning). -/
theorem validate_checkpoint_spec :
    (∀ s : String, validate_checkpoint s = true ↔
      ∃ v, pyIntOfString? s = some v ∧ 0 < v)
  ∧ validate_checkpoint "5" = true
  ∧ validate_checkpoint "10000000000000000000000000" = true := by
  refine ⟨?_, by decide, by decide⟩
  intro s
  by_cases hs : s = ""
  · subst hs
    constructor
    · intro h
      exact absurd h (by decide)
    · rintro ⟨v, hv, _⟩
      simp [pyIntOfString?, digitsVal] at hv
  · rw [validate_checkpoint, if_neg hs]
    cases hp : pyIntOfString? s with
    | none => simp
    | some v =>
      by_cases hv : v ≤ 0
      · simp only [if_pos hv]
        constructor
        · intro h
          exact absurd h (by decide)
        · rintro ⟨v', hv', hpos⟩
          cases hv'
          omega
      · simp only [if_neg hv]
        exact ⟨fun _ => ⟨v, rfl, by omega⟩, fun _ => by trivial⟩

/-- C5 (Scenario A): with no stored checkpoint, one upstream page of 30 items
whose maximum numeric id is `"2000000000000000300"`, and batch size 25,
`process_batch_stream` dispatches exactly the two order-preserving slices
`take 25` and `drop 25` (sizes 25 and 5, concatenating back to the page),
performs exactly one advance — to `"2000000000000000300"` — and leaves that id
as the stored cursor. -/
theorem scenario_a_spec (t : Tweet) (ts : List Tweet) (v : Int) (vs : List Int)
    (hlen : (t :: ts).length = 30)
    (hv : pyIntOfString? t.id = some v)
    (hvs : ts.mapM (fun u => pyIntOfString? u.id) = some vs)
    (hmax : vs.foldl max v = 2000000000000000300) :
    ∃ tr, process_batch_stream (fun _ => true) 25 [t :: ts] {} = .ok tr
      ∧ tr.batches = [(t :: ts).take 25, (t :: ts).drop 25]
      ∧ ((t :: ts).take 25).length = 25
      ∧ ((t :: ts).drop 25).length = 5
      ∧ (t :: ts).take 25 ++ (t :: ts).drop 25 = t :: ts
      ∧ tr.advances = ["2000000000000000300"]
      ∧ tr.store = some ⟨"2000000000000000300", 2000000000000000300⟩
      ∧ tr.checkpoint_updates = 1
      ∧ tr.batches_sent = 2 := by
  have hne : (t :: ts) ≠ [] := by simp
  have hdroplen : ((t :: ts).drop 25).length = 5 := by
    rw [List.length_drop, hlen]
  have hdropne : (t :: ts).drop 25 ≠ [] := by
    intro hcon
    rw [hcon] at hdroplen
    simp at hdroplen
  have htakelen : ((t :: ts).take 25).length = 25 := by
    rw [List.length_take, hlen]
    decide
  have hchunks : chunks 25 (t :: ts) = [(t :: ts).take 25, (t :: ts).drop 25] := by
    rw [chunks_cons_eq 25 (by norm_num) _ hne,
        chunks_singleton_of_le 25 (by norm_num) _ hdropne (by rw [hdroplen]; norm_num)]
  have hfold : (chunks 25 (t :: ts)).foldl (dispatch_batch (fun _ => true)) ({} : PollTrace)
      = { batches := [(t :: ts).take 25, (t :: ts).drop 25],
          batches_sent := 2,
          tweets_processed := ((t :: ts).take 25).length + ((t :: ts).drop 25).length } := by
    rw [hchunks]
    simp [dispatch_batch]
  have hval : validate_checkpoint "2000000000000000300" = true := by decide
  have hparse2 : pyIntOfString? "2000000000000000300" = some 2000000000000000300 := by
    decide
  have htos : toString (2000000000000000300 : Int) = "2000000000000000300" := by decide
  have hcp : checkpoint_page
      ({ batches := [(t :: ts).take 25, (t :: ts).drop 25],
         batches_sent := 2,
         tweets_processed := ((t :: ts).take 25).length + ((t :: ts).drop 25).length }
        : PollTrace) (t :: ts)
      = .ok { batches := [(t :: ts).take 25, (t :: ts).drop 25],
              batches_sent := 2,
              tweets_processed := ((t :: ts).take 25).length + ((t :: ts).drop 25).length,
              advances := ["2000000000000000300"],
              store := some ⟨"2000000000000000300", 2000000000000000300⟩,
              checkpoint_updates := 1 } := by
    simp only [checkpoint_page, hv, hvs]
    rw [hmax, htos]
    simp [update_checkpoint, hval, update_checkpoint_atomic, hparse2]
  refine ⟨{ batches := [(t :: ts).take 25, (t :: ts).drop 25],
            batches_sent := 2,
            tweets_processed := ((t :: ts).take 25).length + ((t :: ts).drop 25).length,
            advances := ["2000000000000000300"],
            store := some ⟨"2000000000000000300", 2000000000000000300⟩,
            checkpoint_updates := 1 }, ?_, rfl, htakelen, hdroplen,
    List.take_append_drop 25 (t :: ts), rfl, rfl, rfl, rfl⟩
  simp only [process_batch_stream, hfold, hcp]

set_option maxRecDepth 8192 in
/-- C5 witness: Scenario A run on the concrete page `pageA` (29 ids
`"1000000000"` and one `"2000000000000000300"`). -/
theorem scenario_a_spec_witness :
    ∃ tr, process_batch_stream (fun _ => true) 25 [pageA] {} = .ok tr
      ∧ tr.advances = ["2000000000000000300"]
      ∧ tr.store = some ⟨"2000000000000000300", 2000000000000000300⟩
      ∧ tr.checkpoint_updates = 1
      ∧ tr.batches_sent = 2 := by
  obtain ⟨tr, h1, _, _, _, _, h6, h7, h8, h9⟩ :=
    scenario_a_spec ({ id := "1000000000" } : Tweet)
      (List.replicate 28 ({ id := "1000000000" } : Tweet) ++ [{ id := "2000000000000000300" }])
      1000000000 pageAValues (by decide) (by decide) (by decide) (by decide)
  exact ⟨tr, by simpa [pageA] using h1, h6, h7, h8, h9⟩

/-- C6: whenever, at the head of a pagination-loop iteration, the elapsed wall
clock has reached `MAX_EXECUTION_TIME = 840` s or the cumulative processed
count has reached `MAX_TWEETS_PER_EXECUTION = 1000`, the loop returns
immediately with the state unchanged — in particular no further upstream
fetch is issued (`api_calls_made` stays fixed), whatever pages the upstream
could still have served. -/
theorem pagination_guard_spec (dispatchOk : Nat → Bool) (bs : Nat)
    (env : List FetchEvent) (st : LoopState)
    (h : MAX_EXECUTION_TIME ≤ st.now - st.start ∨
         MAX_TWEETS_PER_EXECUTION ≤ st.trace.tweets_processed) :
    search_loop dispatchOk bs env st = .ok st
  ∧ ∀ stFin, search_loop dispatchOk bs env st = .ok stFin →
      stFin.trace.api_calls_made = st.trace.api_calls_made := by
  have hterm : should_terminate (st.now - st.start) st.trace.tweets_processed = true := by
    unfold should_terminate
    rcases h with h | h
    · rw [if_pos h]
    · by_cases h1 : st.now - st.start ≥ MAX_EXECUTION_TIME
      · rw [if_pos h1]
      · rw [if_neg h1, if_pos h]
  have hloop : search_loop dispatchOk bs env st = .ok st := by
    cases env with
    | nil => rfl
    | cons ev env' => simp [search_loop, hterm]
  refine ⟨hloop, ?_⟩
  intro stFin hFin
  rw [hloop] at hFin
  cases hFin
  rfl

/-- C6 witness: an invocation already at the 840-second deadline, facing an
upstream that would still serve a failing fetch, issues no call at all. -/
theorem pagination_guard_spec_witness :
    search_loop (fun _ => true) 25 [⟨1, FetchOutcome.failure "timeout" 0⟩]
        { start := 0, now := 840 } =
      .ok { start := 0, now := 840 } :=
  (pagination_guard_spec (fun _ => true) 25 [⟨1, FetchOutcome.failure "timeout" 0⟩]
    { start := 0, now := 840 } (Or.inl (by norm_num [MAX_EXECUTION_TIME]))).1

/-- C8 witness: the validation spec applied at `"12"` — a 2-digit positive id
is valid. -/
theorem validate_checkpoint_spec_witness : validate_checkpoint "12" = true :=
  (validate_checkpoint_spec.1 "12").mpr ⟨12, by decide, by decide⟩

/-- C2 counterexample: with every telemetry header missing, the parser does
NOT return the conservative fallback — `headers.get(key, 0)` defaults each
field to `0`, the `int` conversions succeed, and the stored status has
`limit = 0`, `remaining = 0` rather than `limit = 1`, `remaining = 1`,
`reset = now + 900`. -/
theorem parse_headers_missing_not_fallback :
    (parse_rate_limit_headers {} [] 1000).1.limit = 0
  ∧ (parse_rate_limit_headers {} [] 1000).1.remaining_requests = 0
  ∧ (parse_rate_limit_headers {} [] 1000).1 ≠
      { remaining_requests := 1, reset_time := 1000 + 900, limit := 1,
        should_wait := false, wait_seconds := 0 } := by
  decide

/-- C2 (amended): `parse_rate_limit_headers` is total (never raises).  A
present-but-unparsable telemetry field triggers the conservative fallback
(`remaining = 1`, `limit = 1`, reset 900 s past `now`, manager state
untouched); fully absent telemetry instead parses with every field defaulted
to `0` and yields (and stores) the zero status, not the fallback. -/
theorem parse_headers_fallback_spec (st : RLMState) (headers : List (String × String))
    (now : Int) :
    ((headerInt? headers "x-rate-limit-limit" = none ∨
      headerInt? headers "x-rate-limit-remaining" = none ∨
      headerInt? headers "x-rate-limit-reset" = none) →
      parse_rate_limit_headers st headers now =
        ({ remaining_requests := 1, reset_time := now + 900, limit := 1,
           should_wait := false, wait_seconds := 0 }, st))
  ∧ (headers.lookup "x-rate-limit-limit" = none →
     headers.lookup "x-rate-limit-remaining" = none →
     headers.lookup "x-rate-limit-reset" = none →
      parse_rate_limit_headers st headers now =
        ({ remaining_requests := 0, reset_time := 0, limit := 0,
           should_wait := false, wait_seconds := 0 },
         { st with current_status := (some
             { remaining_requests := 0, reset_time := 0, limit := 0,
               should_wait := false, wait_seconds := 0 }) })) := by
  refine ⟨parse_malformed st headers now, ?_⟩
  intro hA hB hC
  have hA' : headerInt? headers "x-rate-limit-limit" = some 0 := by
    simp [headerInt?, hA]
  have hB' : headerInt? headers "x-rate-limit-remaining" = some 0 := by
    simp [headerInt?, hB]
  have hC' : headerInt? headers "x-rate-limit-reset" = some 0 := by
    simp [headerInt?, hC]
  simp [parse_rate_limit_headers, hA', hB', hC']

/-- C2 witness: the fallback spec applied to a header map whose limit field is
the unparsable string `"abc"`. -/
theorem parse_headers_fallback_spec_witness :
    parse_rate_limit_headers {} [("x-rate-limit-limit", "abc")] 0 =
      ({ remaining_requests := 1, reset_time := 0 + 900, limit := 1,
         should_wait := false, wait_seconds := 0 }, {}) :=
  (parse_headers_fallback_spec {} [("x-rate-limit-limit", "abc")] 0).1
    (Or.inl (by decide))

/-- C10: when telemetry parsing fails, the fallback is returned but
`current_status` is left unchanged, so every later `should_continue_requests`
and `wait_if_needed` decision is computed from the previously stored telemetry
— and permits everything when none was ever stored. -/
theorem parse_failure_frame_spec (st : RLMState) (headers : List (String × String))
    (now now2 : Int) (nowq : ℚ) (force : Bool)
    (h : headerInt? headers "x-rate-limit-limit" = none ∨
         headerInt? headers "x-rate-limit-remaining" = none ∨
         headerInt? headers "x-rate-limit-reset" = none) :
    (parse_rate_limit_headers st headers now).2 = st
  ∧ should_continue_requests (parse_rate_limit_headers st headers now).2 now2
      = should_continue_requests st now2
  ∧ wait_if_needed (parse_rate_limit_headers st headers now).2 nowq force
      = wait_if_needed st nowq force
  ∧ (st.current_status = none →
      should_continue_requests (parse_rate_limit_headers st headers now).2 now2 = true) := by
  rw [parse_malformed st headers now h]
  refine ⟨rfl, rfl, rfl, ?_⟩
  intro h0
  simp [should_continue_requests, h0]

/-- C10 witness: a fresh manager fed an unparsable limit header keeps
`current_status = none` and still permits requests. -/
theorem parse_failure_frame_spec_witness :
    (parse_rate_limit_headers {} [("x-rate-limit-limit", "abc")] 5).2 = {}
  ∧ should_continue_requests
      (parse_rate_limit_headers {} [("x-rate-limit-limit", "abc")] 5).2 7 = true := by
  have h := parse_failure_frame_spec {} [("x-rate-limit-limit", "abc")] 5 7 0 false
    (Or.inl (by decide))
  exact ⟨h.1, h.2.2.2 rfl⟩

end Poller
